import Mathlib

/-!
Shallow embedding of `src/app.py` of the repository `rentas`:
an income-capitalization valuation engine (`calcular_capitalizacion`).

Modelling conventions:
* Python `float` inputs and every intermediate that stays inside field
  arithmetic are modelled as exact rationals (`ℚ`); IEEE floats are a subset
  of `ℚ` and the code's arithmetic is idealized as exact.
* Values produced by the float `**` operator with a fractional exponent are
  modelled in `ℝ` via `Real.rpow` (written `x ^ y` for real `x`, `y`).
* Python `round(x, 2)` is modelled as rounding `x * 100` to the nearest
  integer and dividing by `100`.  Python rounds half to even on binary
  floats; the model rounds half up.  The two agree away from exact `.xx5`
  ties, and no tie occurs in any concrete instance considered below.
* Python `datetime.date` is a (year, month, day) triple; subtraction of two
  dates yields the difference of their proleptic Gregorian ordinals.
* `None`-able fields are `Option`s; dereferencing a missing field raises in
  Python, so the engine returns `Except PyExc RentOutput`, with `.error`
  marking an uncaught `AttributeError` / `TypeError`.
* The insertion-ordered Python dict `flujos_actualizados` is a list of
  key-value pairs in insertion order.
-/

noncomputable section

namespace Rentas

/-- `datetime.date`: a calendar date (year, month, day) as stored by Python. -/
structure PyDate where
  year : ℤ
  month : ℕ
  day : ℕ
deriving DecidableEq, Repr

/-- Gregorian leap-year test, as in Python's `calendar.isleap`. -/
def esBisiesto (y : ℤ) : Bool :=
  (y % 4 == 0 && y % 100 != 0) || (y % 400 == 0)

/-- Cumulative days before month `m` (1-based) in a year. -/
def diasAntesDelMes (leap : Bool) (m : ℕ) : ℕ :=
  let base :=
    match m with
    | 1 => 0 | 2 => 31 | 3 => 59 | 4 => 90 | 5 => 120 | 6 => 151
    | 7 => 181 | 8 => 212 | 9 => 243 | 10 => 273 | 11 => 304 | _ => 334
  if leap && m > 2 then base + 1 else base

/-- Proleptic Gregorian ordinal of a date, as Python's `date.toordinal`:
    day 1 is 0001-01-01.  `Int.fdiv` (floor division) extends the leap count
    to nonpositive years. -/
def toOrdinal (d : PyDate) : ℤ :=
  365 * (d.year - 1) + (d.year - 1).fdiv 4 - (d.year - 1).fdiv 100
    + (d.year - 1).fdiv 400 + (diasAntesDelMes (esBisiesto d.year) d.month : ℤ)
    + (d.day : ℤ)

/-- Days in a month (1-based), as used by Python's date validation. -/
def diasEnMes (leap : Bool) (m : ℕ) : ℕ :=
  match m with
  | 2 => if leap then 29 else 28
  | 4 => 30 | 6 => 30 | 9 => 30 | 11 => 30
  | _ => 31

/-- Python's `date(year, month, day)` constructor check: the constructor
    raises `ValueError` unless `1 ≤ year ≤ 9999`, `1 ≤ month ≤ 12` and
    `1 ≤ day ≤` the number of days of that month in that year (so e.g.
    `date(2021, 2, 29)` raises). -/
def fechaValida (d : PyDate) : Bool :=
  1 ≤ d.year && d.year ≤ 9999 && 1 ≤ d.month && d.month ≤ 12 &&
    1 ≤ d.day && d.day ≤ diasEnMes (esBisiesto d.year) d.month

/-- Python tuple comparison `(a, b) < (c, d)`: lexicographic. -/
def tuplaMenor (a b : ℕ × ℕ) : Bool :=
  a.1 < b.1 || (a.1 == b.1 && a.2 < b.2)

/-- Python `str.lower()`, as a character-wise map (the typology strings the
    engine compares against are ASCII, where `Char.toLower` agrees with
    Python). -/
def lower (s : String) : String := ⟨s.data.map Char.toLower⟩

/-- Python truthiness of an optional float: `None` and `0.0` are falsy. -/
def truthy (o : Option ℚ) : Bool :=
  match o with
  | none => false
  | some x => x != 0

/-- The fixed typology table `VIDA_ECONOMICA` of `src/app.py` (total economic
    life in years by property category), as a lookup returning `Option`
    like Python's `dict.get`. -/
def VIDA_ECONOMICA (s : String) : Option ℕ :=
  if s = "vivienda" then some 100
  else if s = "oficina" then some 75
  else if s = "local_comercial" then some 50
  else if s = "industrial" then some 35
  else none

/-- The request model `RentInput` of `src/app.py` (field order preserved). -/
structure RentInput where
  fecha_valoracion : PyDate
  superficie_m2 : ℚ
  porcentaje_gastos : ℚ
  valor_mercado_m2 : ℚ
  coste_construccion_m2 : ℚ
  otros_gastos_m2 : ℚ
  coef_b : ℚ
  plusvalia_anual : ℚ
  tasa_actualizacion : ℚ
  ipc_anual : ℚ
  fecha_inicio_contrato : Option PyDate
  vigencia_anios : Option ℤ
  renta_mensual : Option ℚ
  fecha_construccion : Option PyDate
  tipologia : Option String
  renta_m2_mes : Option ℚ

/-- The `parametros` dict of the response: either the error shape
    `{"error": msg}` or the diagnostic echo of the four derived quantities. -/
inductive Parametros where
  | err (msg : String)
  | ok (renta_bruta_anual gastos_anuales flujo_neto_base valor_suelo : ℚ)
deriving DecidableEq

/-- The response model `RentOutput` of `src/app.py`.  Monetary fields are
    reals (they pass through fractional-exponent discounting); the dict
    `flujos_actualizados` is kept in insertion order. -/
structure RentOutput where
  valor_actual : ℝ
  valor_reversion : ℝ
  flujos_actualizados : List (String × ℝ)
  parametros : Parametros
  n_periodos : ℚ
  modo : String

/-- An uncaught Python exception escaping the endpoint: `AttributeError`
    (attribute of `None`), `TypeError` (`None` in arithmetic) or
    `ValueError` (invalid arguments to the `date` constructor). -/
inductive PyExc where
  | attributeError
  | typeError
  | valueError
deriving DecidableEq

/-- `round(x, 2)` on a rational. -/
def round2q (x : ℚ) : ℚ := (round (x * 100) : ℤ) / 100

/-- `round(x, 2)` on a real. -/
def round2 (x : ℝ) : ℝ := ((round (x * 100) : ℤ) : ℝ) / 100

/-- Python `f"{q:.2f}"`: fixed-point formatting with two decimals. -/
def format2 (q : ℚ) : String :=
  let c : ℤ := round (q * 100)
  let a : ℕ := c.natAbs
  (if c < 0 then "-" else "")
    ++ toString (a / 100) ++ "."
    ++ (if a % 100 < 10 then "0" else "") ++ toString (a % 100)

/-- One whole-year discounted flow (loop body, lines 123-128 of the source):
    `flujo_neto_base * (1+ipc)^(t-1) / (1+tasa)^(t-0.5)` for `t ≥ 1`. -/
def flujoEntero (ipc tasa fnb : ℚ) (t : ℕ) : ℝ :=
  ((fnb : ℝ) * (1 + (ipc : ℝ)) ^ (t - 1)) / ((1 + (tasa : ℝ)) ^ ((t : ℝ) - 0.5))

/-- The final partial-year discounted flow (lines 130-135 of the source). -/
def flujoParcial (ipc tasa fnb : ℚ) (anios : ℕ) (frac : ℚ) : ℝ :=
  ((fnb : ℝ) * (1 + (ipc : ℝ)) ^ anios * (frac : ℝ))
    / ((1 + (tasa : ℝ)) ^ ((anios : ℝ) + (frac : ℝ) / 2))

/-- The full list of (key, undiscounted-by-rounding) flow entries built by the
    loop of lines 118-135: whole years keyed `str(t)`, then, when the
    fractional remainder is positive, the partial period keyed
    `f"{anios+frac:.2f}"`.  `int(n_periodos)` truncates toward zero, which for
    the guarded case `0 < n` equals the floor. -/
def flujos_brutos (ipc tasa : ℚ) (n fnb : ℚ) : List (String × ℝ) :=
  let anios := n.floor.toNat
  let frac := n - (anios : ℚ)
  ((List.range anios).map fun i =>
    (toString (i + 1), flujoEntero ipc tasa fnb (i + 1)))
    ++ (if 0 < frac then
          [(format2 ((anios : ℚ) + frac), flujoParcial ipc tasa fnb anios frac)]
        else [])

/-- The discounted reversion (lines 115 and 137):
    `valor_suelo * (1+plusvalia)^n / (1+tasa)^n`. -/
def reversion_actualizada (plus tasa vs n : ℚ) : ℝ :=
  ((vs : ℝ) * (1 + (plus : ℝ)) ^ (n : ℝ)) / ((1 + (tasa : ℝ)) ^ (n : ℝ))

/-- The structured error result shape used by the three business-error
    returns of the source: zeroed numerics, empty flow dict, horizon 0. -/
def salidaError (msg modo : String) : RentOutput :=
  { valor_actual := 0
    valor_reversion := 0
    flujos_actualizados := []
    parametros := .err msg
    n_periodos := 0
    modo := modo }

/-- Lines 94-152 of the source: the common tail of the endpoint once the
    mode, the horizon `n`, the gross annual rent and the land value are
    fixed.  (In the source the land value is computed inline, lines 108-112;
    it is passed here as an argument so the spec's second, direct-land-value
    variant can share the pipeline.) -/
def valoracion (pg ipc tasa plus : ℚ) (valor_suelo : ℚ) (modo : String)
    (n rb : ℚ) : RentOutput :=
  if n ≤ 0 then salidaError "El horizonte de explotación es 0 o negativo" modo
  else
    let gastos := rb * pg
    let fnb := rb - gastos
    let rev := reversion_actualizada plus tasa valor_suelo n
    let fl := flujos_brutos ipc tasa n fnb
    { valor_actual := round2 ((fl.map (fun p => p.2)).sum + rev)
      valor_reversion := round2 rev
      flujos_actualizados := fl.map (fun p => (p.1, round2 p.2))
      parametros := .ok rb gastos fnb valor_suelo
      n_periodos := round2q n
      modo := modo }

/-- The residual land value of lines 109-112:
    `vm_total * (1 - coef_b) - (coste_construccion_total + otros_gastos_total)`. -/
def valor_suelo_residual (data : RentInput) : ℚ :=
  data.valor_mercado_m2 * data.superficie_m2 * (1 - data.coef_b)
    - (data.coste_construccion_m2 * data.superficie_m2
        + data.otros_gastos_m2 * data.superficie_m2)

/-- The endpoint `calcular_capitalizacion` of `src/app.py`.  Dereferencing a
    `None` companion field raises (`AttributeError` on `.year` / `.lower()`,
    `TypeError` on `None` in arithmetic), and the `date(...)` constructor of
    lines 55-59 raises `ValueError` when the shifted triple is not a valid
    calendar date (e.g. a Feb 29 start shifted to a non-leap year); all are
    modelled by `Except.error`.  `dict.get` returning `None` is falsy, as is
    a (never occurring) value `0`; the source's `if not vida_economica` is
    modelled by `(VIDA_ECONOMICA _).getD 0 = 0`. -/
def calcular_capitalizacion (data : RentInput) : Except PyExc RentOutput :=
  if truthy data.renta_mensual then
    match data.fecha_inicio_contrato with
    | none => .error .attributeError
    | some fi =>
      match data.vigencia_anios with
      | none => .error .typeError
      | some vig =>
        if fechaValida ⟨fi.year + vig, fi.month, fi.day⟩ then
          let fecha_fin_contrato : PyDate := ⟨fi.year + vig, fi.month, fi.day⟩
          let dias_restantes : ℤ :=
            toOrdinal fecha_fin_contrato - toOrdinal data.fecha_valoracion
          let n : ℚ := (dias_restantes : ℚ) / 365
          .ok (valoracion data.porcentaje_gastos data.ipc_anual
                data.tasa_actualizacion data.plusvalia_anual
                (valor_suelo_residual data) "contrato" n
                (data.renta_mensual.getD 0 * 12))
        else .error .valueError
  else if truthy data.renta_m2_mes then
    match data.fecha_construccion with
    | none => .error .attributeError
    | some fc =>
      let antiguedad : ℤ :=
        (data.fecha_valoracion.year - fc.year)
          - (if tuplaMenor (data.fecha_valoracion.month, data.fecha_valoracion.day)
                (fc.month, fc.day) then 1 else 0)
      match data.tipologia with
      | none => .error .attributeError
      | some tip =>
        let vida := (VIDA_ECONOMICA (lower tip)).getD 0
        if vida = 0 then
          .ok (salidaError ("Tipología no reconocida: " ++ tip) "mercado")
        else
          let n : ℚ := (vida : ℚ) - (antiguedad : ℚ)
          .ok (valoracion data.porcentaje_gastos data.ipc_anual
                data.tasa_actualizacion data.plusvalia_anual
                (valor_suelo_residual data) "mercado" n
                (data.renta_m2_mes.getD 0 * data.superficie_m2 * 12))
  else
    .ok (salidaError
          "Debes pasar renta_mensual (contrato) o renta_m2_mes (mercado)" "error")

/-- Modelled from the spec: the repository's second near-duplicate source
    variant (not under `src/`), in which the land value feeding the reversion
    is supplied directly as a `valor_suelo` input field instead of being
    derived by the residual formula; the rest of the pipeline is identical. -/
def calcular_capitalizacion_directo (data : RentInput) (valor_suelo : ℚ) :
    Except PyExc RentOutput :=
  if truthy data.renta_mensual then
    match data.fecha_inicio_contrato with
    | none => .error .attributeError
    | some fi =>
      match data.vigencia_anios with
      | none => .error .typeError
      | some vig =>
        if fechaValida ⟨fi.year + vig, fi.month, fi.day⟩ then
          let fecha_fin_contrato : PyDate := ⟨fi.year + vig, fi.month, fi.day⟩
          let dias_restantes : ℤ :=
            toOrdinal fecha_fin_contrato - toOrdinal data.fecha_valoracion
          let n : ℚ := (dias_restantes : ℚ) / 365
          .ok (valoracion data.porcentaje_gastos data.ipc_anual
                data.tasa_actualizacion data.plusvalia_anual
                valor_suelo "contrato" n (data.renta_mensual.getD 0 * 12))
        else .error .valueError
  else if truthy data.renta_m2_mes then
    match data.fecha_construccion with
    | none => .error .attributeError
    | some fc =>
      let antiguedad : ℤ :=
        (data.fecha_valoracion.year - fc.year)
          - (if tuplaMenor (data.fecha_valoracion.month, data.fecha_valoracion.day)
                (fc.month, fc.day) then 1 else 0)
      match data.tipologia with
      | none => .error .attributeError
      | some tip =>
        let vida := (VIDA_ECONOMICA (lower tip)).getD 0
        if vida = 0 then
          .ok (salidaError ("Tipología no reconocida: " ++ tip) "mercado")
        else
          let n : ℚ := (vida : ℚ) - (antiguedad : ℚ)
          .ok (valoracion data.porcentaje_gastos data.ipc_anual
                data.tasa_actualizacion data.plusvalia_anual
                valor_suelo "mercado" n
                (data.renta_m2_mes.getD 0 * data.superficie_m2 * 12))
  else
    .ok (salidaError
          "Debes pasar renta_mensual (contrato) o renta_m2_mes (mercado)" "error")

/-! ### General helper lemmas -/

/-- The `modo` field survives both branches of the common tail. -/
theorem valoracion_modo (pg ipc tasa plus vs : ℚ) (modo : String) (n rb : ℚ) :
    (valoracion pg ipc tasa plus vs modo n rb).modo = modo := by
  rw [valoracion]
  split <;> rfl

/-- Sample inputs used by witnesses: an input with no rent field at all. -/
def entradaVacia : RentInput :=
  ⟨⟨2024, 1, 1⟩, 1, 0, 0, 0, 0, 0, 0, 0, 0, none, none, none, none, none, none⟩

/-- Sample contract-mode input: valuation 2021-01-01, contract 2021-01-01 for
    3 years, monthly rent 1000, no expenses, all rates zero. -/
def entradaContrato : RentInput :=
  ⟨⟨2021, 1, 1⟩, 1, 0, 0, 0, 0, 0, 0, 0, 0,
    some ⟨2021, 1, 1⟩, some 3, some 1000, none, none, none⟩

/-- Sample market-mode input: valuation 2024-01-01, construction 1993-01-01,
    typology `industrial`, rent 2 per m² per month over 10 m². -/
def entradaMercado : RentInput :=
  ⟨⟨2024, 1, 1⟩, 10, 0, 0, 0, 0, 0, 0, 0, 0,
    none, none, none, some ⟨1993, 1, 1⟩, some "industrial", some 2⟩

/-- Contract-mode input with the companion fields missing. -/
def entradaContratoRota : RentInput :=
  ⟨⟨2024, 1, 1⟩, 1, 0, 0, 0, 0, 0, 0, 0, 0, none, none, some 5, none, none, none⟩

/-- Market-mode input whose typology is unrecognized but whose construction
    date is missing. -/
def entradaAlmacenSinFecha : RentInput :=
  ⟨⟨2024, 1, 1⟩, 1, 0, 0, 0, 0, 0, 0, 0, 0,
    none, none, none, none, some "warehouse", some 1⟩

/-- Market-mode input with typology `warehouse` and all companion fields
    present. -/
def entradaAlmacen : RentInput :=
  ⟨⟨2024, 1, 1⟩, 1, 0, 0, 0, 0, 0, 0, 0, 0,
    none, none, none, some ⟨2000, 1, 1⟩, some "warehouse", some 1⟩

/-- Market-mode input for the rounding-tolerance counterexample: industrial
    asset built 1993-01-01, valued 2024-01-01 (age 31, horizon 4), market
    rent 2501/3000 per m² per month over 1 m² (net base flow 10.004), all
    rates and costs zero. -/
def entradaTolerancia : RentInput :=
  ⟨⟨2024, 1, 1⟩, 1, 0, 0, 0, 0, 0, 0, 0, 0,
    none, none, none, some ⟨1993, 1, 1⟩, some "industrial", some (2501 / 3000)⟩

/-- Contract-mode input pair for the discount-rate monotonicity
    counterexample: one year of rent 1 per month, derived land value -1000
    (construction cost 1000 exceeds a zero market value), discount rate 0. -/
def entradaTasaBaja : RentInput :=
  ⟨⟨2023, 1, 1⟩, 1, 0, 0, 1000, 0, 0, 0, 0, 0,
    some ⟨2023, 1, 1⟩, some 1, some 1, none, none, none⟩

/-- The same input with discount rate 9/16 = 0.5625 (so that the mid-period
    discount factor is exactly 5/4). -/
def entradaTasaAlta : RentInput :=
  ⟨⟨2023, 1, 1⟩, 1, 0, 0, 1000, 0, 0, 0, 9 / 16, 0,
    some ⟨2023, 1, 1⟩, some 1, some 1, none, none, none⟩

/-- Contract-mode input whose shifted end date does not exist: the contract
    starts on the leap day 2020-02-29 (a real calendar date) with a 1-year
    term, so line 55 of the source builds `date(2021, 2, 29)`. -/
def entradaBisiesta : RentInput :=
  ⟨⟨2024, 1, 1⟩, 1, 0, 0, 0, 0, 0, 0, 0, 0,
    some ⟨2020, 2, 29⟩, some 1, some 5, none, none, none⟩

/-! ### C4: contract-mode horizon and gross income -/

/-- **C4, counterexample.** A contract starting on the leap day 2020-02-29
    with a 1-year term (monthly rent truthy, both companion fields present):
    the shifted triple (2021, 2, 29) is not a valid calendar date, Python's
    `date()` constructor raises `ValueError`, and the engine computes no
    horizon and returns no result at all. -/
theorem contrato_horizonte_contraejemplo :
    truthy entradaBisiesta.renta_mensual = true ∧
    entradaBisiesta.fecha_inicio_contrato = some ⟨2020, 2, 29⟩ ∧
    entradaBisiesta.vigencia_anios = some 1 ∧
    fechaValida ⟨2020, 2, 29⟩ = true ∧
    fechaValida ⟨2020 + 1, 2, 29⟩ = false ∧
    calcular_capitalizacion entradaBisiesta = .error .valueError ∧
    ∀ out, calcular_capitalizacion entradaBisiesta ≠ .ok out := by
  refine ⟨rfl, rfl, rfl, by decide, by decide, rfl, ?_⟩
  intro out h
  rw [show calcular_capitalizacion entradaBisiesta
        = .error .valueError from rfl] at h
  exact Except.noConfusion h

/-- **C4, amended.** In contract mode (monthly rent supplied and nonzero,
    companion fields present): whenever the contract start date shifted
    forward by the term in calendar years (month and day preserved) is a
    valid calendar date, the engine proceeds with horizon equal to the
    number of days from the valuation date to that date divided by 365 and
    gross annual income equal to the monthly rent times 12; when the shifted
    date does not exist, the engine raises `ValueError` instead of
    computing any horizon. -/
theorem contrato_horizonte_y_renta (data : RentInput) (fi : PyDate) (vig : ℤ)
    (r : ℚ) (hr : data.renta_mensual = some r) (hr0 : r ≠ 0)
    (hfi : data.fecha_inicio_contrato = some fi)
    (hv : data.vigencia_anios = some vig) :
    (fechaValida ⟨fi.year + vig, fi.month, fi.day⟩ = true →
      calcular_capitalizacion data =
        .ok (valoracion data.porcentaje_gastos data.ipc_anual
          data.tasa_actualizacion data.plusvalia_anual
          (valor_suelo_residual data) "contrato"
          (((toOrdinal ⟨fi.year + vig, fi.month, fi.day⟩
              - toOrdinal data.fecha_valoracion : ℤ) : ℚ) / 365)
          (r * 12))) ∧
    (fechaValida ⟨fi.year + vig, fi.month, fi.day⟩ = false →
      calcular_capitalizacion data = .error .valueError) := by
  constructor <;> intro hval <;>
    simp [calcular_capitalizacion, truthy, hr, hr0, hfi, hv, hval]

/-- Witness for the amended C4 on a concrete input: 2021-01-01 plus 3 years
    is the valid date 2024-01-01, 1095 days after the valuation date
    2021-01-01. -/
theorem contrato_horizonte_y_renta_witness :
    calcular_capitalizacion entradaContrato =
      .ok (valoracion 0 0 0 0 (valor_suelo_residual entradaContrato) "contrato"
        (((toOrdinal ⟨2021 + 3, 1, 1⟩ - toOrdinal ⟨2021, 1, 1⟩ : ℤ) : ℚ) / 365)
        (1000 * 12)) :=
  (contrato_horizonte_y_renta entradaContrato ⟨2021, 1, 1⟩ 3 1000 rfl
    (by norm_num) rfl rfl).1 (by decide)

/-! ### C6: mode selection -/

/-- **C6.** Mode selection: contract mode exactly when the monthly rent is
    truthy (any non-error result is then labelled `"contrato"`), else market
    mode when the rent per m² is truthy, else the `MissingIncomeInput`
    structured error; a supplied rent of `0` is falsy, i.e. treated as
    absent, and `None` likewise. -/
theorem seleccion_de_modo :
    (∀ data : RentInput, truthy data.renta_mensual = true →
      ∀ out, calcular_capitalizacion data = .ok out → out.modo = "contrato") ∧
    (∀ data : RentInput, truthy data.renta_mensual = false →
      truthy data.renta_m2_mes = true →
      ∀ out, calcular_capitalizacion data = .ok out → out.modo = "mercado") ∧
    (∀ data : RentInput, truthy data.renta_mensual = false →
      truthy data.renta_m2_mes = false →
      calcular_capitalizacion data = .ok (salidaError
        "Debes pasar renta_mensual (contrato) o renta_m2_mes (mercado)"
        "error")) ∧
    truthy (some 0) = false ∧ truthy none = false := by
  refine ⟨?_, ?_, ?_, by decide, rfl⟩
  · intro data h out hout
    rw [calcular_capitalizacion] at hout
    simp only [h, if_true] at hout
    rcases hfi : data.fecha_inicio_contrato with _ | fi <;> rw [hfi] at hout
    · simp at hout
    · rcases hv : data.vigencia_anios with _ | vig <;> rw [hv] at hout
      · simp at hout
      · by_cases hval : fechaValida ⟨fi.year + vig, fi.month, fi.day⟩ <;>
          simp only [hval, if_true, Bool.false_eq_true, if_false] at hout
        · simp only [Except.ok.injEq] at hout
          rw [← hout, valoracion_modo]
        · simp at hout
  · intro data h h2 out hout
    rw [calcular_capitalizacion] at hout
    simp only [h, h2, if_true, Bool.false_eq_true, if_false] at hout
    rcases hfc : data.fecha_construccion with _ | fc <;> rw [hfc] at hout
    · simp at hout
    · rcases htip : data.tipologia with _ | tip <;> rw [htip] at hout
      · simp at hout
      · by_cases hv : (VIDA_ECONOMICA (lower tip)).getD 0 = 0 <;>
          simp only [hv, if_true, if_false] at hout
        · simp only [Except.ok.injEq] at hout
          rw [← hout]; rfl
        · simp only [Except.ok.injEq] at hout
          rw [← hout, valoracion_modo]
  · intro data h h2
    rw [calcular_capitalizacion]
    simp [h, h2]

/-- Witness for C6 on a concrete input with neither rent supplied. -/
theorem seleccion_de_modo_witness :
    calcular_capitalizacion entradaVacia = .ok (salidaError
      "Debes pasar renta_mensual (contrato) o renta_m2_mes (mercado)"
      "error") :=
  seleccion_de_modo.2.2.1 entradaVacia rfl rfl

/-! ### C10: missing companion fields raise -/

/-- **C10.** When the truthy rent field selects a mode whose companion fields
    are absent, the engine dereferences `None` and escapes with an uncaught
    exception instead of returning any result object: contract mode with a
    missing start date or term, and market mode with a missing construction
    date or typology. -/
theorem campos_faltantes_excepcion (data : RentInput) :
    (truthy data.renta_mensual = true →
      (data.fecha_inicio_contrato = none ∨ data.vigencia_anios = none) →
      ∃ e, calcular_capitalizacion data = .error e) ∧
    (truthy data.renta_mensual = false → truthy data.renta_m2_mes = true →
      (data.fecha_construccion = none ∨ data.tipologia = none) →
      ∃ e, calcular_capitalizacion data = .error e) := by
  constructor
  · intro h hmiss
    rw [calcular_capitalizacion]
    simp only [h, if_true]
    rcases hmiss with hfi | hv
    · rw [hfi]; exact ⟨.attributeError, rfl⟩
    · rcases hfi : data.fecha_inicio_contrato with _ | fi
      · exact ⟨.attributeError, rfl⟩
      · rw [hv]; exact ⟨.typeError, rfl⟩
  · intro h h2 hmiss
    rw [calcular_capitalizacion]
    simp only [h, h2, if_true, Bool.false_eq_true, if_false]
    rcases hmiss with hfc | htip
    · rw [hfc]; exact ⟨.attributeError, rfl⟩
    · rcases hfc : data.fecha_construccion with _ | fc
      · exact ⟨.attributeError, rfl⟩
      · rw [htip]; exact ⟨.attributeError, rfl⟩

/-- Witness for C10: a nonzero monthly rent with no contract dates raises. -/
theorem campos_faltantes_excepcion_witness :
    ∃ e, calcular_capitalizacion entradaContratoRota = .error e :=
  (campos_faltantes_excepcion entradaContratoRota).1 rfl (Or.inl rfl)

/-! ### C5: market-mode horizon, typology table, age adjustment -/

/-- **C5.** The typology table holds vivienda=100, oficina=75,
    local_comercial=50, industrial=35, looked up case-insensitively (the
    lookup key is lower-cased first, so `"Vivienda"` hits `"vivienda"`); and
    in market mode the engine proceeds with horizon equal to the economic
    life minus the age, where the age is the valuation year minus the
    construction year, reduced by one exactly when the valuation (month, day)
    precedes the construction (month, day). -/
theorem mercado_horizonte_y_tabla :
    (VIDA_ECONOMICA "vivienda" = some 100 ∧ VIDA_ECONOMICA "oficina" = some 75 ∧
     VIDA_ECONOMICA "local_comercial" = some 50 ∧
     VIDA_ECONOMICA "industrial" = some 35 ∧
     VIDA_ECONOMICA (lower "Vivienda") = VIDA_ECONOMICA "vivienda") ∧
    ∀ (data : RentInput) (fc : PyDate) (tip : String) (r : ℚ) (vida : ℕ),
      truthy data.renta_mensual = false → data.renta_m2_mes = some r → r ≠ 0 →
      data.fecha_construccion = some fc → data.tipologia = some tip →
      VIDA_ECONOMICA (lower tip) = some vida → vida ≠ 0 →
      calcular_capitalizacion data =
        .ok (valoracion data.porcentaje_gastos data.ipc_anual
          data.tasa_actualizacion data.plusvalia_anual
          (valor_suelo_residual data) "mercado"
          ((vida : ℚ) - (((data.fecha_valoracion.year - fc.year)
            - (if tuplaMenor
                  (data.fecha_valoracion.month, data.fecha_valoracion.day)
                  (fc.month, fc.day) then 1 else 0) : ℤ) : ℚ))
          (r * data.superficie_m2 * 12)) := by
  refine ⟨⟨rfl, rfl, rfl, rfl, by decide⟩, ?_⟩
  intro data fc tip r vida h hr hr0 hfc htip hvida hv0
  rw [calcular_capitalizacion]
  simp only [h, Bool.false_eq_true, if_false]
  simp [truthy, hr, hr0, hfc, htip, hvida, hv0]

/-- Witness for C5 on a concrete market-mode input: industrial asset built
    1993-01-01 and valued 2024-01-01 is 31 years old, so the horizon is
    35 - 31 = 4 years. -/
theorem mercado_horizonte_y_tabla_witness :
    calcular_capitalizacion entradaMercado =
      .ok (valoracion 0 0 0 0 (valor_suelo_residual entradaMercado) "mercado"
        ((35 : ℚ) - (((2024 - 1993 : ℤ)
          - (if tuplaMenor (1, 1) (1, 1) then 1 else 0) : ℤ) : ℚ))
        (2 * 10 * 12)) :=
  mercado_horizonte_y_tabla.2 entradaMercado ⟨1993, 1, 1⟩ "industrial" 2 35
    rfl rfl (by norm_num) rfl rfl (by decide) (by norm_num)

/-! ### C7: structured business errors -/

/-- **C7, counterexample.** An input in market mode (no monthly rent, truthy
    rent per m²) with the unrecognized typology `"warehouse"` — but a missing
    construction date — makes the engine raise an uncaught exception instead
    of returning any result object. -/
theorem errores_estructurados_contraejemplo :
    truthy entradaAlmacenSinFecha.renta_mensual = false ∧
    truthy entradaAlmacenSinFecha.renta_m2_mes = true ∧
    entradaAlmacenSinFecha.tipologia = some "warehouse" ∧
    VIDA_ECONOMICA (lower "warehouse") = none ∧
    calcular_capitalizacion entradaAlmacenSinFecha = .error .attributeError ∧
    ∀ out, calcular_capitalizacion entradaAlmacenSinFecha ≠ .ok out := by
  refine ⟨rfl, rfl, rfl, by decide, rfl, ?_⟩
  intro out h
  rw [show calcular_capitalizacion entradaAlmacenSinFecha
        = .error .attributeError from rfl] at h
  exact Except.noConfusion h

/-- **C7, amended.** Provided the fields the selected mode dereferences are
    present and, in contract mode, the shifted contract-end date is a valid
    calendar date, each of the three business-error conditions yields the
    structured error result (a well-formed `RentOutput` with the descriptive
    message, zeroed numerics, empty flow mapping and horizon 0), never an
    exception — stated for the mode-selection error, the unknown-typology
    error, the horizon check of the common tail, and the full contract-mode
    expired-horizon path — and the common tail reports non-error
    `parametros` only when the computed horizon is strictly positive. -/
theorem errores_estructurados :
    (∀ msg modo : String, salidaError msg modo =
      ⟨0, 0, [], .err msg, 0, modo⟩) ∧
    (∀ data : RentInput, truthy data.renta_mensual = false →
      truthy data.renta_m2_mes = false →
      calcular_capitalizacion data = .ok (salidaError
        "Debes pasar renta_mensual (contrato) o renta_m2_mes (mercado)"
        "error")) ∧
    (∀ (data : RentInput) (fc : PyDate) (tip : String),
      truthy data.renta_mensual = false → truthy data.renta_m2_mes = true →
      data.fecha_construccion = some fc → data.tipologia = some tip →
      VIDA_ECONOMICA (lower tip) = none →
      calcular_capitalizacion data =
        .ok (salidaError ("Tipología no reconocida: " ++ tip) "mercado")) ∧
    (∀ (pg ipc tasa plus vs : ℚ) (modo : String) (n rb : ℚ), n ≤ 0 →
      valoracion pg ipc tasa plus vs modo n rb =
        salidaError "El horizonte de explotación es 0 o negativo" modo) ∧
    (∀ (data : RentInput) (fi : PyDate) (vig : ℤ) (r : ℚ),
      data.renta_mensual = some r → r ≠ 0 →
      data.fecha_inicio_contrato = some fi → data.vigencia_anios = some vig →
      fechaValida ⟨fi.year + vig, fi.month, fi.day⟩ = true →
      ((toOrdinal ⟨fi.year + vig, fi.month, fi.day⟩
          - toOrdinal data.fecha_valoracion : ℤ) : ℚ) / 365 ≤ 0 →
      calcular_capitalizacion data = .ok (salidaError
        "El horizonte de explotación es 0 o negativo" "contrato")) ∧
    (∀ (pg ipc tasa plus vs : ℚ) (modo : String) (n rb a b c d : ℚ),
      (valoracion pg ipc tasa plus vs modo n rb).parametros = .ok a b c d →
      0 < n) := by
  have hhor : ∀ (pg ipc tasa plus vs : ℚ) (modo : String) (n rb : ℚ),
      n ≤ 0 → valoracion pg ipc tasa plus vs modo n rb =
        salidaError "El horizonte de explotación es 0 o negativo" modo := by
    intro pg ipc tasa plus vs modo n rb hn
    rw [valoracion, if_pos hn]
  refine ⟨fun msg modo => rfl, ?_, ?_, hhor, ?_, ?_⟩
  · intro data h h2
    rw [calcular_capitalizacion]
    simp [h, h2]
  · intro data fc tip h h2 hfc htip hvida
    rw [calcular_capitalizacion]
    simp only [h, Bool.false_eq_true, if_false, h2, if_true]
    rw [hfc, htip]
    simp [hvida]
  · intro data fi vig r hr hr0 hfi hv hval hn
    have hrb : (r != 0) = true := by simp [hr0]
    simp only [calcular_capitalizacion, truthy, hr, hrb, if_true, hfi, hv,
      hval, eq_self_iff_true]
    exact congrArg Except.ok (hhor _ _ _ _ _ _ _ _ hn)
  · intro pg ipc tasa plus vs modo n rb a b c d h
    by_contra hn
    rw [valoracion, if_pos (le_of_not_lt hn)] at h
    exact Parametros.noConfusion h

/-- Witness for the amended C7: the unknown typology `warehouse`, with the
    construction date present, yields the documented structured error. -/
theorem errores_estructurados_witness :
    calcular_capitalizacion entradaAlmacen =
      .ok (salidaError ("Tipología no reconocida: " ++ "warehouse")
        "mercado") :=
  errores_estructurados.2.2.1 entradaAlmacen ⟨2000, 1, 1⟩ "warehouse"
    rfl rfl rfl rfl (by decide)

/-! ### C2: the discounted cash-flow series -/

/-- **C2.** For a valuation that passes the horizon check, the recorded flow
    mapping is, in chronological order: for each whole year `t = i + 1` with
    `i < floor n`, the flow `net_base * (1+inflation)^(t-1)` discounted at
    mid-period time `t - 0.5`, keyed by the integer label `t`; followed,
    exactly when the fractional remainder `f = n - floor n` is positive, by
    the partial flow `net_base * (1+inflation)^(floor n) * f` discounted at
    time `floor n + f/2`, keyed by the horizon formatted to two decimals.
    (`net_base = rb - rb * pg`; each entry is rounded to 2 decimals at the
    point of recording.) -/
theorem flujos_como_especificados (pg ipc tasa plus vs : ℚ) (modo : String)
    (n rb : ℚ) (hn : 0 < n) :
    (valoracion pg ipc tasa plus vs modo n rb).flujos_actualizados =
      ((List.range n.floor.toNat).map fun (i : ℕ) =>
        (toString (i + 1),
          round2 ((((rb - rb * pg : ℚ) : ℝ) * (1 + (ipc : ℝ)) ^ (i : ℕ))
            / (1 + (tasa : ℝ)) ^ (((i : ℝ) + 1) - 0.5))))
      ++ (if 0 < n - (n.floor.toNat : ℚ) then
            [(format2 n,
              round2 ((((rb - rb * pg : ℚ) : ℝ) * (1 + (ipc : ℝ)) ^ n.floor.toNat
                * ((n - (n.floor.toNat : ℚ) : ℚ) : ℝ))
                / (1 + (tasa : ℝ)) ^ ((n.floor.toNat : ℝ)
                    + ((n - (n.floor.toNat : ℚ) : ℚ) : ℝ) / 2)))]
          else []) := by
  rw [valoracion, if_neg (not_le.mpr hn)]
  show (flujos_brutos ipc tasa n (rb - rb * pg)).map
      (fun p => (p.1, round2 p.2)) = _
  rw [flujos_brutos]
  simp only [List.map_append, List.map_map]
  congr 1
  · apply List.map_congr_left
    intro i _
    simp only [Function.comp_apply, flujoEntero, Nat.add_sub_cancel]
    congr 2
    push_cast
    ring
  · have hkey : ((n.floor.toNat : ℚ) + (n - (n.floor.toNat : ℚ))) = n := by
      ring
    split
    · rw [List.map_cons, List.map_nil, hkey]
      exact congrArg (fun x => [(format2 n, round2 x)])
        (by rw [flujoParcial])
    · rfl

/-- Witness for C2 at horizon 3 (contract sample input). -/
theorem flujos_como_especificados_witness :
    (0 : ℚ) < 3 ∧
    (valoracion 0 0 0 0 0 "contrato" 3 12000).flujos_actualizados =
      ((List.range (3 : ℚ).floor.toNat).map fun (i : ℕ) =>
        (toString (i + 1),
          round2 ((((12000 - 12000 * 0 : ℚ) : ℝ) * (1 + ((0 : ℚ) : ℝ)) ^ (i : ℕ))
            / (1 + ((0 : ℚ) : ℝ)) ^ (((i : ℝ) + 1) - 0.5))))
      ++ (if 0 < (3 : ℚ) - ((3 : ℚ).floor.toNat : ℚ) then
            [(format2 3,
              round2 ((((12000 - 12000 * 0 : ℚ) : ℝ)
                * (1 + ((0 : ℚ) : ℝ)) ^ (3 : ℚ).floor.toNat
                * (((3 : ℚ) - ((3 : ℚ).floor.toNat : ℚ) : ℚ) : ℝ))
                / (1 + ((0 : ℚ) : ℝ)) ^ (((3 : ℚ).floor.toNat : ℝ)
                    + (((3 : ℚ) - ((3 : ℚ).floor.toNat : ℚ) : ℚ) : ℝ) / 2)))]
          else []) :=
  ⟨by norm_num, flujos_como_especificados 0 0 0 0 0 "contrato" 3 12000
    (by norm_num)⟩

/-! ### C3: the reversion value -/

/-- **C3.** For a valuation that passes the horizon check, the reported
    discounted reversion is the undiscounted reversion
    `land_value * (1+appreciation)^n` divided by `(1+discount)^n` —
    discounted at the end of the full horizon, not mid-period — rounded at
    the point of reporting; with zero appreciation it is
    `land_value / (1+discount)^n` (rounded). -/
theorem reversion_como_especificada (pg ipc tasa plus vs : ℚ) (modo : String)
    (n rb : ℚ) (hn : 0 < n) :
    ((valoracion pg ipc tasa plus vs modo n rb).valor_reversion =
      round2 (((vs : ℝ) * (1 + (plus : ℝ)) ^ ((n : ℚ) : ℝ))
        / (1 + (tasa : ℝ)) ^ ((n : ℚ) : ℝ))) ∧
    (plus = 0 →
      (valoracion pg ipc tasa plus vs modo n rb).valor_reversion =
        round2 ((vs : ℝ) / (1 + (tasa : ℝ)) ^ ((n : ℚ) : ℝ))) := by
  constructor
  · rw [valoracion, if_neg (not_le.mpr hn)]
    rfl
  · intro hp
    rw [valoracion, if_neg (not_le.mpr hn)]
    show round2 (reversion_actualizada plus tasa vs n) = _
    rw [reversion_actualizada, hp]
    norm_num [Real.one_rpow]

/-- Witness for C3: land value 50000, zero appreciation, zero discount,
    horizon 10. -/
theorem reversion_como_especificada_witness :
    (0 : ℚ) < 10 ∧
    (valoracion 0 0 0 0 50000 "contrato" 10 12000).valor_reversion =
      round2 ((((50000 : ℚ) : ℝ) * (1 + ((0 : ℚ) : ℝ)) ^ (((10 : ℚ) : ℚ) : ℝ))
        / (1 + ((0 : ℚ) : ℝ)) ^ (((10 : ℚ) : ℚ) : ℝ)) :=
  ⟨by norm_num,
    (reversion_como_especificada 0 0 0 0 50000 "contrato" 10 12000
      (by norm_num)).1⟩

/-! ### C8: the two land-value variants -/

/-- **C8.** The land value feeding the reversion: the `src/app.py` engine is
    exactly the spec-modelled direct-land-value variant applied to the
    residual land value, which equals the spec's residual formula
    `vm_m2*area - coef_b*vm_m2*area - (cc_m2 + otros_m2)*area`; and whichever
    variant runs, the land value it was given is the one echoed in the
    diagnostic `parametros` (it feeds the reversion unchanged). -/
theorem valor_suelo_dos_variantes :
    (∀ data : RentInput, valor_suelo_residual data =
      data.valor_mercado_m2 * data.superficie_m2
        - data.coef_b * (data.valor_mercado_m2 * data.superficie_m2)
        - (data.coste_construccion_m2 + data.otros_gastos_m2)
            * data.superficie_m2) ∧
    (∀ data : RentInput, calcular_capitalizacion data =
      calcular_capitalizacion_directo data (valor_suelo_residual data)) ∧
    (∀ (pg ipc tasa plus vsuelo : ℚ) (modo : String) (n rb a b c d : ℚ),
      (valoracion pg ipc tasa plus vsuelo modo n rb).parametros = .ok a b c d →
      d = vsuelo) := by
  refine ⟨fun data => by rw [valor_suelo_residual]; ring, fun data => rfl,
    ?_⟩
  intro pg ipc tasa plus vsuelo modo n rb a b c d h
  rcases le_or_lt n 0 with hn | hn
  · rw [valoracion, if_pos hn] at h
    exact Parametros.noConfusion h
  · rw [valoracion, if_neg (not_le.mpr hn)] at h
    injection h with h1 h2 h3 h4
    exact h4.symm

/-- Witness for C8: the diagnostic echo of a concrete valuation carries the
    supplied land value 77. -/
theorem valor_suelo_dos_variantes_witness :
    (valoracion 0 0 0 0 77 "contrato" 1 12).parametros = .ok 12 0 12 77 ∧
    (77 : ℚ) = 77 := by
  have h : (valoracion 0 0 0 0 77 "contrato" 1 12).parametros
      = .ok 12 (12 * 0) (12 - 12 * 0) 77 := by
    rw [valoracion, if_neg (by norm_num)]
  refine ⟨by rw [h]; norm_num, ?_⟩
  exact valor_suelo_dos_variantes.2.2 0 0 0 0 77 "contrato" 1 12 12 0 12 77
    (by rw [h]; norm_num)

/-! ### Helper lemmas for the rounding and discounting analysis -/

/-- Unfolding of the common tail when the horizon check passes. -/
theorem valoracion_pos_eq (pg ipc tasa plus vs : ℚ) (modo : String) (n rb : ℚ)
    (hn : 0 < n) :
    valoracion pg ipc tasa plus vs modo n rb =
      { valor_actual := round2 (((flujos_brutos ipc tasa n (rb - rb * pg)).map
            (fun p => p.2)).sum + reversion_actualizada plus tasa vs n)
        valor_reversion := round2 (reversion_actualizada plus tasa vs n)
        flujos_actualizados := (flujos_brutos ipc tasa n (rb - rb * pg)).map
          (fun p => (p.1, round2 p.2))
        parametros := .ok rb (rb * pg) (rb - rb * pg) vs
        n_periodos := round2q n
        modo := modo } := by
  rw [valoracion, if_neg (not_le.mpr hn)]

/-- Rounding to two decimals moves a real by at most `1/200`. -/
theorem abs_round2_sub (x : ℝ) : |round2 x - x| ≤ 1 / 200 := by
  have h2 : |((round (x * 100) : ℤ) : ℝ) - x * 100| ≤ 1 / 2 := by
    rw [abs_sub_comm]
    exact abs_sub_round (x * 100)
  have h3 : round2 x - x = (((round (x * 100) : ℤ) : ℝ) - x * 100) / 100 := by
    rw [round2]; ring
  rw [h3, abs_div, abs_of_pos (show (0 : ℝ) < 100 by norm_num)]
  linarith

/-- Rounding every entry of a list moves its sum by at most `1/200` per
    entry. -/
theorem abs_sum_round2_sub (l : List ℝ) :
    |(l.map round2).sum - l.sum| ≤ l.length * (1 / 200) := by
  induction l with
  | nil => simp
  | cons x xs ih =>
    simp only [List.map_cons, List.sum_cons, List.length_cons]
    have hx := abs_round2_sub x
    have hsplit : round2 x + (xs.map round2).sum - (x + xs.sum)
        = (round2 x - x) + ((xs.map round2).sum - xs.sum) := by ring
    rw [hsplit]
    calc |(round2 x - x) + ((xs.map round2).sum - xs.sum)|
        ≤ |round2 x - x| + |(xs.map round2).sum - xs.sum| := abs_add _ _
      _ ≤ 1 / 200 + xs.length * (1 / 200) := add_le_add hx ih
      _ = ((xs.length : ℝ) + 1) * (1 / 200) := by ring
      _ = ((xs.length + 1 : ℕ) : ℝ) * (1 / 200) := by push_cast; ring

/-- Rounding a rational cast commutes with the rational rounding. -/
theorem round2_ratCast (q : ℚ) : round2 ((q : ℚ) : ℝ) = ((round2q q : ℚ) : ℝ) := by
  rw [round2, round2q]
  norm_cast

/-- With zero inflation and zero discount rate, every whole-year flow is the
    net base flow itself. -/
theorem flujoEntero_tasas_cero (q : ℚ) (t : ℕ) :
    flujoEntero 0 0 q t = (q : ℝ) := by
  simp [flujoEntero, Real.one_rpow]

/-! ### C1: present value vs. reported components -/

/-- **C1, amended.** The reported present value equals the sum of the
    reported (rounded) flow values plus the reported (rounded) discounted
    reversion within `0.005 * (k + 2)`, where `k` is the number of recorded
    flows — each of the `k` entries, the reversion and the total are rounded
    to 2 decimals independently, each contributing up to half a cent. -/
theorem tolerancia_redondeo (pg ipc tasa plus vs : ℚ) (modo : String)
    (n rb : ℚ) :
    |(valoracion pg ipc tasa plus vs modo n rb).valor_actual
        - (((valoracion pg ipc tasa plus vs modo n rb).flujos_actualizados.map
            (fun p => p.2)).sum
          + (valoracion pg ipc tasa plus vs modo n rb).valor_reversion)|
      ≤ (((valoracion pg ipc tasa plus vs modo n rb).flujos_actualizados.length
          : ℝ) + 2) * (1 / 200) := by
  rcases le_or_lt n 0 with hn | hn
  · rw [valoracion, if_pos hn]
    simp [salidaError]
  · rw [valoracion_pos_eq pg ipc tasa plus vs modo n rb hn]
    dsimp only
    set L : List ℝ := (flujos_brutos ipc tasa n (rb - rb * pg)).map
      (fun p => p.2) with hL
    set r : ℝ := reversion_actualizada plus tasa vs n with hr
    have hvals : ((flujos_brutos ipc tasa n (rb - rb * pg)).map
        (fun p => (p.1, round2 p.2))).map (fun p => p.2) = L.map round2 := by
      rw [hL, List.map_map, List.map_map]
      rfl
    have hlen : ((flujos_brutos ipc tasa n (rb - rb * pg)).map
        (fun p => (p.1, round2 p.2))).length = L.length := by
      rw [hL, List.length_map, List.length_map]
    rw [hvals, hlen]
    have h1 := abs_round2_sub (L.sum + r)
    have h2 := abs_sum_round2_sub L
    have h3 := abs_round2_sub r
    have hsplit : round2 (L.sum + r) - ((L.map round2).sum + round2 r)
        = (round2 (L.sum + r) - (L.sum + r))
          - ((L.map round2).sum - L.sum) - (round2 r - r) := by ring
    rw [hsplit]
    calc |(round2 (L.sum + r) - (L.sum + r))
          - ((L.map round2).sum - L.sum) - (round2 r - r)|
        ≤ |(round2 (L.sum + r) - (L.sum + r))
          - ((L.map round2).sum - L.sum)| + |round2 r - r| :=
          abs_sub _ _
      _ ≤ |round2 (L.sum + r) - (L.sum + r)|
          + |(L.map round2).sum - L.sum| + |round2 r - r| :=
          add_le_add_right (abs_sub _ _) _
      _ ≤ 1 / 200 + (L.length : ℝ) * (1 / 200) + 1 / 200 := by
          exact add_le_add (add_le_add h1 h2) h3
      _ = ((L.length : ℝ) + 2) * (1 / 200) := by ring

/-- **C1, counterexample.** On a valid market-mode input with four equal
    flows of 10.004 and a zero reversion, the reported present value is
    40.02 while the recorded flow values sum to 40.00 and the reported
    reversion is 0: the discrepancy is 0.02 > 0.01. -/
theorem tolerancia_contraejemplo :
    (calcular_capitalizacion entradaTolerancia).map
        (fun o => |o.valor_actual - ((o.flujos_actualizados.map
          (fun p => p.2)).sum + o.valor_reversion)|) = .ok 0.02 ∧
    ¬ ((0.02 : ℝ) ≤ 0.01) := by
  constructor
  · have hvida : VIDA_ECONOMICA (lower "industrial") = some 35 := by decide
    have hmode : calcular_capitalizacion entradaTolerancia
        = .ok (valoracion 0 0 0 0 0 "mercado" 4 (2501 / 250)) := by
      rw [calcular_capitalizacion]
      norm_num [truthy, entradaTolerancia, tuplaMenor, hvida,
        valor_suelo_residual]
    rw [hmode]
    have hval : valoracion 0 0 0 0 0 "mercado" 4 (2501 / 250) =
        { valor_actual := round2 ((((flujos_brutos 0 0 4
              ((2501 : ℚ) / 250 - 2501 / 250 * 0)).map (fun p => p.2)).sum
            + reversion_actualizada 0 0 0 4))
          valor_reversion := round2 (reversion_actualizada 0 0 0 4)
          flujos_actualizados := (flujos_brutos 0 0 4
            ((2501 : ℚ) / 250 - 2501 / 250 * 0)).map
              (fun p => (p.1, round2 p.2))
          parametros := .ok (2501 / 250) (2501 / 250 * 0)
            (2501 / 250 - 2501 / 250 * 0) 0
          n_periodos := round2q 4
          modo := "mercado" } :=
      valoracion_pos_eq 0 0 0 0 0 "mercado" 4 (2501 / 250) (by norm_num)
    have harg : (2501 : ℚ) / 250 - 2501 / 250 * 0 = 2501 / 250 := by norm_num
    have hts1 : toString (1 : ℕ) = "1" := by decide
    have hts2 : toString (2 : ℕ) = "2" := by decide
    have hts3 : toString (3 : ℕ) = "3" := by decide
    have hts4 : toString (4 : ℕ) = "4" := by decide
    have h4 : ((4 : ℚ).floor.toNat) = 4 := by decide
    have hrange : List.range 4 = [0, 1, 2, 3] := rfl
    have hfl : flujos_brutos 0 0 4 ((2501 : ℚ) / 250) =
        [("1", ((2501 : ℚ) / 250 : ℝ)), ("2", ((2501 : ℚ) / 250 : ℝ)),
         ("3", ((2501 : ℚ) / 250 : ℝ)), ("4", ((2501 : ℚ) / 250 : ℝ))] := by
      simp only [flujos_brutos, h4, hrange]
      norm_num [flujoEntero_tasas_cero, hts1, hts2, hts3, hts4]
    have hrev : reversion_actualizada 0 0 0 4 = 0 := by
      simp [reversion_actualizada]
    rw [hval]
    simp only [Except.map, Except.ok.injEq]
    rw [harg, hfl, hrev]
    simp only [List.map_cons, List.map_nil, List.sum_cons, List.sum_nil]
    norm_num [round2, round_eq]
  · norm_num

/-! ### Helper lemmas for discount-rate monotonicity -/

/-- Sum of a mapped range list as a `Finset` sum. -/
theorem listmap_range_sum (m : ℕ) (f : ℕ → ℝ) :
    ((List.range m).map f).sum = ∑ i in Finset.range m, f i := by
  induction m with
  | zero => simp
  | succ k ih =>
    rw [List.range_succ, List.map_append, List.sum_append,
      Finset.sum_range_succ, ih]
    simp

/-- A positive amount discounted by a strictly larger base (real exponent
    `e > 0`) becomes strictly smaller. -/
theorem div_rpow_lt_div_rpow (c e b₁ b₂ : ℝ) (hc : 0 < c) (he : 0 < e)
    (hb : 0 < b₁) (hbb : b₁ < b₂) : c / b₂ ^ e < c / b₁ ^ e :=
  div_lt_div_of_pos_left hc (Real.rpow_pos_of_pos hb e)
    (Real.rpow_lt_rpow hb.le hbb he)

/-- A nonnegative amount discounted by a larger base becomes no larger. -/
theorem div_rpow_le_div_rpow (c e b₁ b₂ : ℝ) (hc : 0 ≤ c) (he : 0 ≤ e)
    (hb : 0 < b₁) (hbb : b₁ ≤ b₂) : c / b₂ ^ e ≤ c / b₁ ^ e :=
  div_le_div_of_nonneg_left hc (Real.rpow_pos_of_pos hb e)
    (Real.rpow_le_rpow hb.le hbb he)

/-- Rounding to two decimals is monotone. -/
theorem round2_mono {x y : ℝ} (h : x ≤ y) : round2 x ≤ round2 y := by
  rw [round2, round2]
  have h1 : round (x * 100) ≤ round (y * 100) := by
    rw [round_eq, round_eq]
    exact Int.floor_mono (by linarith)
  have h2 : ((round (x * 100) : ℤ) : ℝ) ≤ ((round (y * 100) : ℤ) : ℝ) :=
    Int.cast_le.mpr h1
  linarith

/-- The raw (unrounded) flow-value sum, split into the whole-year `Finset`
    sum plus the optional partial-period flow. -/
theorem flujos_brutos_sum (ipc tasa : ℚ) (n fnb : ℚ) :
    ((flujos_brutos ipc tasa n fnb).map (fun p => p.2)).sum
      = (∑ i in Finset.range n.floor.toNat, flujoEntero ipc tasa fnb (i + 1))
        + (if 0 < n - (n.floor.toNat : ℚ) then
            flujoParcial ipc tasa fnb n.floor.toNat (n - (n.floor.toNat : ℚ))
          else 0) := by
  simp only [flujos_brutos]
  rw [List.map_append, List.sum_append, List.map_map, listmap_range_sum]
  have hpar : (List.map (fun p => p.2)
      (if 0 < n - (n.floor.toNat : ℚ) then
        [(format2 ((n.floor.toNat : ℚ) + (n - (n.floor.toNat : ℚ))),
          flujoParcial ipc tasa fnb n.floor.toNat (n - (n.floor.toNat : ℚ)))]
      else [])).sum
      = (if 0 < n - (n.floor.toNat : ℚ) then
          flujoParcial ipc tasa fnb n.floor.toNat (n - (n.floor.toNat : ℚ))
        else 0) := by
    split <;> simp
  rw [hpar]
  exact congrArg₂ (fun a b => a + b)
    (Finset.sum_congr rfl fun i _ => rfl) rfl

/-! ### C9: discount-rate monotonicity -/

/-- **C9, amended.** For two valuations of the same non-error input that
    differ only in the discount rate — with a positive net base flow, a
    nonnegative land value, inflation and appreciation rates above or at -1,
    and discount rates above -1 — the strictly larger discount rate yields a
    strictly smaller *unrounded* present value, and hence a reported
    (2-decimal-rounded) present value that is no larger. -/
theorem monotonia_tasa (pg ipc plus vs : ℚ) (modo : String) (n rb t₁ t₂ : ℚ)
    (hn : 0 < n) (hfnb : 0 < rb - rb * pg) (hipc : (0 : ℚ) ≤ 1 + ipc)
    (hvs : 0 ≤ vs) (hplus : (0 : ℚ) ≤ 1 + plus)
    (ht1 : -1 < t₁) (ht : t₁ < t₂) :
    (((flujos_brutos ipc t₂ n (rb - rb * pg)).map (fun p => p.2)).sum
        + reversion_actualizada plus t₂ vs n
      < ((flujos_brutos ipc t₁ n (rb - rb * pg)).map (fun p => p.2)).sum
        + reversion_actualizada plus t₁ vs n) ∧
    (valoracion pg ipc t₂ plus vs modo n rb).valor_actual
      ≤ (valoracion pg ipc t₁ plus vs modo n rb).valor_actual := by
  have hb1 : (0 : ℝ) < 1 + (t₁ : ℚ) := by
    have hq : (0 : ℚ) < 1 + t₁ := by linarith
    exact_mod_cast hq
  have hbb : 1 + ((t₁ : ℚ) : ℝ) < 1 + ((t₂ : ℚ) : ℝ) := by
    have hq : (1 : ℚ) + t₁ < 1 + t₂ := by linarith
    exact_mod_cast hq
  have hfnbR : (0 : ℝ) < ((rb - rb * pg : ℚ) : ℝ) := by exact_mod_cast hfnb
  have hipcR : (0 : ℝ) ≤ 1 + ((ipc : ℚ) : ℝ) := by exact_mod_cast hipc
  have hvsR : (0 : ℝ) ≤ ((vs : ℚ) : ℝ) := by exact_mod_cast hvs
  have hplusR : (0 : ℝ) ≤ 1 + ((plus : ℚ) : ℝ) := by exact_mod_cast hplus
  have hnR : (0 : ℝ) < ((n : ℚ) : ℝ) := by exact_mod_cast hn
  have hflow_le : ∀ i : ℕ,
      flujoEntero ipc t₂ (rb - rb * pg) (i + 1)
        ≤ flujoEntero ipc t₁ (rb - rb * pg) (i + 1) := by
    intro i
    rw [flujoEntero, flujoEntero]
    apply div_rpow_le_div_rpow _ _ _ _
      (mul_nonneg hfnbR.le (pow_nonneg hipcR _)) ?_ hb1 hbb.le
    have hi : (0 : ℝ) ≤ (i : ℝ) := Nat.cast_nonneg i
    push_cast
    norm_num
    linarith
  have hflow0_lt : flujoEntero ipc t₂ (rb - rb * pg) 1
      < flujoEntero ipc t₁ (rb - rb * pg) 1 := by
    rw [flujoEntero, flujoEntero]
    apply div_rpow_lt_div_rpow _ _ _ _ (by simpa using hfnbR) (by norm_num)
      hb1 hbb
  have hfrac_nonneg : ∀ h : 0 < n - (n.floor.toNat : ℚ),
      (0 : ℝ) ≤ ((n - (n.floor.toNat : ℚ) : ℚ) : ℝ) := by
    intro h
    have := h.le
    exact_mod_cast this
  have hpar_le :
      (if 0 < n - (n.floor.toNat : ℚ) then
        flujoParcial ipc t₂ (rb - rb * pg) n.floor.toNat
          (n - (n.floor.toNat : ℚ)) else 0)
      ≤ (if 0 < n - (n.floor.toNat : ℚ) then
        flujoParcial ipc t₁ (rb - rb * pg) n.floor.toNat
          (n - (n.floor.toNat : ℚ)) else 0) := by
    split_ifs with h
    · rw [flujoParcial, flujoParcial]
      apply div_rpow_le_div_rpow _ _ _ _
        (mul_nonneg (mul_nonneg hfnbR.le (pow_nonneg hipcR _))
          (hfrac_nonneg h)) ?_ hb1 hbb.le
      have h1 : (0 : ℝ) ≤ ((n.floor.toNat : ℕ) : ℝ) := Nat.cast_nonneg _
      have h2 := hfrac_nonneg h
      linarith
    · exact le_rfl
  have hrev_le : reversion_actualizada plus t₂ vs n
      ≤ reversion_actualizada plus t₁ vs n := by
    rw [reversion_actualizada, reversion_actualizada]
    exact div_rpow_le_div_rpow _ _ _ _
      (mul_nonneg hvsR (Real.rpow_nonneg hplusR _)) hnR.le hb1 hbb.le
  have hlt : ((flujos_brutos ipc t₂ n (rb - rb * pg)).map
        (fun p => p.2)).sum + reversion_actualizada plus t₂ vs n
      < ((flujos_brutos ipc t₁ n (rb - rb * pg)).map
        (fun p => p.2)).sum + reversion_actualizada plus t₁ vs n := by
    rw [flujos_brutos_sum, flujos_brutos_sum]
    rcases Nat.eq_zero_or_pos n.floor.toNat with h0 | hpos
    · have hfr : 0 < n - (n.floor.toNat : ℚ) := by
        rw [h0]
        push_cast
        linarith
      rw [h0] at hfr ⊢
      simp only [Finset.range_zero, Finset.sum_empty, if_pos hfr]
      have hpar_lt : flujoParcial ipc t₂ (rb - rb * pg) 0 (n - ((0 : ℕ) : ℚ))
          < flujoParcial ipc t₁ (rb - rb * pg) 0 (n - ((0 : ℕ) : ℚ)) := by
        rw [flujoParcial, flujoParcial]
        apply div_rpow_lt_div_rpow _ _ _ _ ?_ ?_ hb1 hbb
        · have hfR : (0 : ℝ) < ((n - ((0 : ℕ) : ℚ) : ℚ) : ℝ) := by
            exact_mod_cast hfr
          have : ((rb - rb * pg : ℚ) : ℝ) * (1 + ((ipc : ℚ) : ℝ)) ^ (0 : ℕ)
              = ((rb - rb * pg : ℚ) : ℝ) := by norm_num
          rw [this]
          exact mul_pos hfnbR hfR
        · have hfR : (0 : ℝ) < ((n - ((0 : ℕ) : ℚ) : ℚ) : ℝ) := by
            exact_mod_cast hfr
          push_cast
          push_cast at hfR
          linarith
      linarith [hpar_lt, hrev_le]
    · have hsum_lt :
          (∑ i in Finset.range n.floor.toNat,
            flujoEntero ipc t₂ (rb - rb * pg) (i + 1))
          < ∑ i in Finset.range n.floor.toNat,
            flujoEntero ipc t₁ (rb - rb * pg) (i + 1) :=
        Finset.sum_lt_sum (fun i _ => hflow_le i)
          ⟨0, Finset.mem_range.mpr hpos, hflow0_lt⟩
      linarith [hsum_lt, hpar_le, hrev_le]
  refine ⟨hlt, ?_⟩
  rw [valoracion_pos_eq pg ipc t₂ plus vs modo n rb hn,
    valoracion_pos_eq pg ipc t₁ plus vs modo n rb hn]
  exact round2_mono hlt.le

/-- Witness for the amended C9 at a concrete pair of rates 0 < 1 on a
    one-year horizon with net base flow 12 and zero land value. -/
theorem monotonia_tasa_witness :
    ((0 : ℚ) < 1 ∧ (0 : ℚ) < 12 - 12 * 0 ∧ (0 : ℚ) ≤ 1 + 0 ∧ (0 : ℚ) ≤ 0 ∧
      (-1 : ℚ) < 0 ∧ (0 : ℚ) < 1) ∧
    ((flujos_brutos 0 1 1 (12 - 12 * 0)).map (fun p => p.2)).sum
        + reversion_actualizada 0 1 0 1
      < ((flujos_brutos 0 0 1 (12 - 12 * 0)).map (fun p => p.2)).sum
        + reversion_actualizada 0 0 0 1 :=
  ⟨⟨by norm_num, by norm_num, by norm_num, le_rfl, by norm_num, by norm_num⟩,
    (monotonia_tasa 0 0 0 0 "contrato" 1 12 0 1 (by norm_num) (by norm_num)
      (by norm_num) le_rfl (by norm_num) (by norm_num) (by norm_num)).1⟩

/-- **C9, counterexample.** Two valid non-error contract-mode inputs
    differing only in the discount rate (0 versus 0.5625), with a negative
    residual land value (-1000): the larger rate yields the strictly larger
    reported present value (-630.4 > -988). -/
theorem monotonia_contraejemplo :
    entradaTasaBaja.tasa_actualizacion < entradaTasaAlta.tasa_actualizacion ∧
    (calcular_capitalizacion entradaTasaBaja).map
      (fun o => o.valor_actual) = .ok (-988) ∧
    (calcular_capitalizacion entradaTasaAlta).map
      (fun o => o.valor_actual) = .ok (-630.4) ∧
    ((-988 : ℝ) < -630.4) := by
  have hd : (toOrdinal ⟨2024, 1, 1⟩ - toOrdinal ⟨2023, 1, 1⟩ : ℤ) = 365 := by
    decide
  have hfv : fechaValida ⟨2024, 1, 1⟩ = true := by decide
  have h1 : ((1 : ℚ).floor.toNat) = 1 := by decide
  have hts1 : toString (1 : ℕ) = "1" := by decide
  have hrange1 : List.range 1 = [0] := rfl
  have hflB : flujos_brutos 0 0 1 (12 : ℚ) = [("1", ((12 : ℚ) : ℝ))] := by
    simp only [flujos_brutos, h1, hrange1]
    norm_num [flujoEntero_tasas_cero, hts1]
  have hflowA : flujoEntero 0 (9 / 16) 12 1 = 48 / 5 := by
    rw [flujoEntero]
    push_cast
    rw [show (1 : ℝ) - 0.5 = 1 / 2 by norm_num]
    rw [show (1 : ℝ) + 9 / 16 = (5 / 4) ^ 2 by norm_num]
    rw [← Real.sqrt_eq_rpow, Real.sqrt_sq (by norm_num : (0 : ℝ) ≤ 5 / 4)]
    norm_num
  have hflA : flujos_brutos 0 (9 / 16) 1 (12 : ℚ) = [("1", (48 / 5 : ℝ))] := by
    simp only [flujos_brutos, h1, hrange1]
    norm_num [hflowA, hts1]
  have hrevB : reversion_actualizada 0 0 (-1000) 1 = -1000 := by
    simp [reversion_actualizada, Real.one_rpow]
  have hrevA : reversion_actualizada 0 (9 / 16) (-1000) 1 = -640 := by
    rw [reversion_actualizada]
    simp only [Rat.cast_zero, add_zero, Rat.cast_one, Real.one_rpow,
      Real.rpow_one, mul_one]
    push_cast
    norm_num
  refine ⟨by norm_num [entradaTasaBaja, entradaTasaAlta], ?_, ?_, by norm_num⟩
  · have hmode : calcular_capitalizacion entradaTasaBaja
        = .ok (valoracion 0 0 0 0 (-1000) "contrato" 1 12) := by
      rw [calcular_capitalizacion]
      norm_num [truthy, entradaTasaBaja, valor_suelo_residual, hd, hfv]
    rw [hmode, valoracion_pos_eq 0 0 0 0 (-1000) "contrato" 1 12
      (by norm_num)]
    simp only [Except.map, Except.ok.injEq]
    rw [show (12 : ℚ) - 12 * 0 = 12 by norm_num, hflB, hrevB]
    norm_num [round2, round_eq]
  · have hmode : calcular_capitalizacion entradaTasaAlta
        = .ok (valoracion 0 0 (9 / 16) 0 (-1000) "contrato" 1 12) := by
      rw [calcular_capitalizacion]
      norm_num [truthy, entradaTasaAlta, valor_suelo_residual, hd, hfv]
    rw [hmode, valoracion_pos_eq 0 0 (9 / 16) 0 (-1000) "contrato" 1 12
      (by norm_num)]
    simp only [Except.map, Except.ok.injEq]
    rw [show (12 : ℚ) - 12 * 0 = 12 by norm_num, hflA, hrevA]
    norm_num [round2, round_eq]

end Rentas

end
